import Mathlib

/-!
Verification development for the tourism-management-system repository
(Flask + SQLite/PostgreSQL). The definitions below are shallow embeddings
of the route handlers in src/app.py and of the schema initializer in
src/init_db.py; theorems settle the frozen specification claims.

Conventions:
* SQL tables are Lean lists of row structures whose fields follow the
  CREATE TABLE statements of src/init_db.py.
* The salted password hashing primitives (werkzeug's
  generate_password_hash / check_password_hash) are external
  collaborators; they are passed in as parameters `hash : String → String`
  and `check : String → String → Bool`, with `check (hash p) p = true`
  assumed only where a concrete instantiation is supplied.
* Machine floats do not occur in any claim-relevant computation; the REAL
  `price`/`amount` columns are modelled as `Int` (the seeded and claimed
  values are integers, and the claims are algebraic identities preserved
  by any ring).
-/

namespace Tourism

/-! ## Rows, per the CREATE TABLE statements of src/init_db.py -/

structure Package where
  id : Nat
  title : String
  location : String
  description : String
  price : Int
  days : Nat
  image_url : String
  status : String
  created_at : Nat
deriving DecidableEq

structure UserRow where
  id : Nat
  fullname : String
  email : String
  password_hash : String
  phone : Option String
  location : Option String
  created_at : Nat
deriving DecidableEq

structure AdminRow where
  id : Nat
  fullname : String
  email : String
  password_hash : String
  phone : Option String
  role : String
  avatar_url : String
  created_at : Nat
deriving DecidableEq

structure Booking where
  id : Nat
  user_id : Nat
  package_id : Nat
  name : String
  email : String
  travel_date : String
  persons : Int
  status : String
  booked_at : Nat
deriving DecidableEq

structure Payment where
  id : Nat
  booking_id : Nat
  user_id : Nat
  amount : Int
  payment_status : String
  payment_method : String
  paid_at : Nat
deriving DecidableEq

structure FeedbackRow where
  id : Nat
  user_name : String
  user_email : String
  subject : String
  message : String
  created_at : Nat
deriving DecidableEq

structure ActivityRow where
  id : Nat
  actor_id : Option Nat
  role : String
  action : String
  created_at : Nat
deriving DecidableEq

/-- The two interchangeable datastore backends selected by `get_db`
(src/app.py lines 29-49): PostgreSQL when the DATABASE_URL environment
variable is set, SQLite otherwise. -/
inductive Backend
  | sqlite
  | postgres
deriving DecidableEq

/-! ## String helpers mirroring Python / SQLite semantics -/

/-- ASCII lower-casing, as SQLite's built-in LIKE applies to the pattern
and the text (SQLite LIKE is case-insensitive for ASCII letters only). -/
def lowerAscii (c : Char) : Char :=
  if 'A' ≤ c ∧ c ≤ 'Z' then Char.ofNat (c.toNat + 32) else c

/-- Python's str.strip(): remove leading and trailing whitespace. -/
def pyStrip (s : String) : String :=
  ⟨((s.data.dropWhile Char.isWhitespace).reverse.dropWhile Char.isWhitespace).reverse⟩

/-- SQLite LIKE pattern matching over character lists: the first argument
is the pattern ('%' matches any sequence, '_' any single character, other
characters match ASCII-case-insensitively), the second the text. -/
def likeMatch : List Char → List Char → Bool
  | [], s => s.isEmpty
  | p :: ps, s =>
    if p = '%' then s.tails.any (fun t => likeMatch ps t)
    else
      match s with
      | [] => false
      | d :: t =>
        (if p = '_' then true else lowerAscii p = lowerAscii d) && likeMatch ps t

/-- Evaluation of SQLite's `s LIKE pat`, as `sqlLike s pat`. -/
def sqlLike (s pat : String) : Bool :=
  likeMatch pat.data s.data

/-- The /explore handler `explore_packages` (src/app.py lines 179-190):
strip the query; if non-empty, keep the packages whose title or location
matches the LIKE pattern `%q%`; otherwise return all packages. -/
def explorePackages (q : String) (pkgs : List Package) : List Package :=
  if pyStrip q = "" then pkgs
  else
    pkgs.filter (fun p =>
      sqlLike p.title ("%" ++ pyStrip q ++ "%") || sqlLike p.location ("%" ++ pyStrip q ++ "%"))

/-- ASCII-case-insensitive substring containment over strings. -/
def containsCI (needle hay : String) : Bool :=
  decide (needle.data.map lowerAscii <:+: hay.data.map lowerAscii)

/-- Modelled from the spec: `search(query) -> Package[]` as the spec words
it — "case-insensitive substring match against title or location when
query is non-empty; else all packages". Used only to compare against the
source-derived `explorePackages`. -/
def specSearch (q : String) (pkgs : List Package) : List Package :=
  if pyStrip q = "" then pkgs
  else
    pkgs.filter (fun p =>
      containsCI (pyStrip q) p.title || containsCI (pyStrip q) p.location)

/-- Returns `true` iff the string contains no SQL LIKE wildcard character. -/
def noLikeWildcard (s : String) : Bool :=
  s.data.all (fun c => c ≠ '%' && c ≠ '_')

/-- Models Python's `int(s)` on a decimal string: strip whitespace, allow
one optional sign, then require at least one ASCII digit. Returns `none`
exactly when `int()` would raise ValueError. -/
def isAsciiDigit (c : Char) : Bool :=
  '0' ≤ c && c ≤ '9'

def digitsToNat (ds : List Char) : Nat :=
  ds.foldl (fun n c => n * 10 + (c.toNat - '0'.toNat)) 0

def pyInt? (s : String) : Option Int :=
  match (pyStrip s).data with
  | [] => none
  | '-' :: ds =>
    if ds ≠ [] ∧ ds.all isAsciiDigit then some (-(digitsToNat ds : Int)) else none
  | '+' :: ds =>
    if ds ≠ [] ∧ ds.all isAsciiDigit then some (digitsToNat ds : Int) else none
  | ds =>
    if ds.all isAsciiDigit then some (digitsToNat ds : Int) else none

/-! ## Schema initializer (src/init_db.py, `init_db`) -/

/-- The full datastore: the eight tables created by `init_db`. -/
structure InitDB where
  users : List UserRow
  admins : List AdminRow
  packages : List Package
  admin_activity : List ActivityRow
  bookings : List Booking
  payments : List Payment
  feedback : List FeedbackRow
  cloud_activity : List ActivityRow
deriving DecidableEq

def emptyInitDB : InitDB :=
  ⟨[], [], [], [], [], [], [], []⟩

/-- The seed admin inserted when the admins table is empty
(src/init_db.py lines 140-145). -/
def seedAdmin (hash : String → String) : AdminRow :=
  { id := 1
    fullname := "Admin"
    email := "admin@demo.com"
    password_hash := hash "admin123"
    phone := none
    role := "Administrator"
    avatar_url := "/static/admin_default.png"
    created_at := 0 }

/-- First demo package seeded by src/init_db.py line 151. -/
def beachPkg : Package :=
  { id := 1, title := "Beach Escape", location := "Goa"
    description := "3N/4D seaside fun", price := 12999, days := 4
    image_url := "https://picsum.photos/seed/goa/800/500"
    status := "Available", created_at := 0 }

/-- Second demo package seeded by src/init_db.py line 152. -/
def mountainPkg : Package :=
  { id := 2, title := "Mountain Retreat", location := "Manali"
    description := "4N/5D snow experience", price := 17999, days := 5
    image_url := "https://picsum.photos/seed/manali/800/500"
    status := "Available", created_at := 0 }

/-- The two literal demo packages inserted when the packages table is
empty (src/init_db.py lines 148-157). -/
def demoPackages : List Package :=
  [beachPkg, mountainPkg]

/-- Initializer `init_db` (src/init_db.py lines 35-162): the eight CREATE TABLE IF NOT
EXISTS statements leave existing table contents unchanged; then the seed
admin is inserted iff `SELECT COUNT(*) FROM admins` is zero, and the two
demo packages are inserted iff `SELECT COUNT(*) FROM packages` is zero. -/
def initDb (hash : String → String) (db : InitDB) : InitDB :=
  let db1 := if db.admins.length = 0 then { db with admins := [seedAdmin hash] } else db
  if db1.packages.length = 0 then { db1 with packages := demoPackages } else db1

/-! ## Activity logger (src/app.py, `log_action`, lines 66-80) -/

structure LogDB where
  admin_activity : List ActivityRow
  cloud_activity : List ActivityRow
deriving DecidableEq

/-- Logger `log_action(user_id, role, action)`: on the PostgreSQL backend
(DATABASE_URL set) the row goes to admin_activity when role is "admin",
else to cloud_activity; on the SQLite backend the insert always targets
admin_activity (src/app.py line 77). The surrounding try/except swallows
any failure (modelled by the `fault` flag) and only prints it, so the
function always returns. -/
def logAction (be : Backend) (fault : Bool) (db : LogDB)
    (user_id : Option Nat) (role action : String) : LogDB :=
  if fault then db
  else
    match be with
    | .postgres =>
      if role = "admin" then
        { db with admin_activity :=
            db.admin_activity ++ [⟨db.admin_activity.length + 1, user_id, role, action, 0⟩] }
      else
        { db with cloud_activity :=
            db.cloud_activity ++ [⟨db.cloud_activity.length + 1, user_id, role, action, 0⟩] }
    | .sqlite =>
      { db with admin_activity :=
          db.admin_activity ++ [⟨db.admin_activity.length + 1, user_id, role, action, 0⟩] }

/-! ## Sessions and authentication (src/app.py, `login` / `admin_login`) -/

/-- The Flask session cookie: the four keys the app ever sets. -/
structure Session where
  user_id : Option Nat
  user_name : Option String
  admin_id : Option Nat
  admin_name : Option String
deriving DecidableEq

def sessionCleared : Session :=
  ⟨none, none, none, none⟩

inductive AuthOutcome
  | emailNotFound
  | incorrectPassword
  | success
deriving DecidableEq

/-- Handler `login` POST (src/app.py lines 301-318): look up the user by email;
on a hash match run `session.clear()` and then set `user_id` and
`user_name`. -/
def userLogin (check : String → String → Bool) (users : List UserRow)
    (s : Session) (email password : String) : Session × AuthOutcome :=
  match users.find? (fun u => u.email == email) with
  | none => (s, .emailNotFound)
  | some u =>
    if check u.password_hash password then
      ({ sessionCleared with user_id := some u.id, user_name := some u.fullname }, .success)
    else (s, .incorrectPassword)

/-- Handler `admin_login` POST (src/app.py lines 478-495): look up the admin by
email; on a hash match run `session.clear()` and then set `admin_id` and
`admin_name`. -/
def adminLogin (check : String → String → Bool) (admins : List AdminRow)
    (s : Session) (email password : String) : Session × AuthOutcome :=
  match admins.find? (fun a => a.email == email) with
  | none => (s, .emailNotFound)
  | some a =>
    if check a.password_hash password then
      ({ sessionCleared with admin_id := some a.id, admin_name := some a.fullname }, .success)
    else (s, .incorrectPassword)

/-! ## Registration (src/app.py, `register`, lines 280-299) -/

/-- Exception classes that can escape a datastore statement. The handler's
`except sqlite3.IntegrityError` clause catches only the first. -/
inductive Exc
  | sqliteIntegrityError
  | pgError (msg : String)
deriving DecidableEq

inductive RegOutcome
  | validationError                 -- flash "All fields are required."
  | duplicateFlash                  -- flash "Email already registered."
  | success
  | raised (e : Exc)                -- exception propagates out of the handler
deriving DecidableEq

def newUserRow (hash : String → String) (users : List UserRow)
    (fullname email password : String) : UserRow :=
  { id := users.length + 1
    fullname := fullname
    email := email
    password_hash := hash password
    phone := none
    location := none
    created_at := 0 }

/-- The error every PostgreSQL-backend handler statement of `register`
dies with: `get_db` returns a raw psycopg2 connection (src/app.py lines
35-41), and psycopg2 connections have no `execute` method (that
convenience is sqlite3-specific; `register` never calls `cursor()`), so
`db.execute(...)` at src/app.py line 291 raises AttributeError before the
INSERT reaches the driver. -/
def pgNoExecute : Exc :=
  .pgError "AttributeError: connection object has no attribute execute"

/-- Handler `register` POST: the presence check on the three form fields
runs before any datastore access; then the handler executes
`db.execute(INSERT INTO users ...)` inside a try whose only except clause
is `except sqlite3.IntegrityError`. On the SQLite backend the email
column's UNIQUE constraint makes a duplicate insert raise
`sqlite3.IntegrityError`, which is caught and turned into the duplicate
flash; a fresh email is inserted and succeeds. On the PostgreSQL backend
the `db.execute` call itself raises AttributeError (see `pgNoExecute`)
for every registration, duplicate or fresh, before any INSERT; the
sqlite-specific except clause does not catch it, so it propagates and no
row is ever created. -/
def register (be : Backend) (hash : String → String) (users : List UserRow)
    (fullname email password : String) : List UserRow × RegOutcome :=
  if fullname = "" ∨ email = "" ∨ password = "" then (users, .validationError)
  else
    match be with
    | .postgres => (users, .raised pgNoExecute)
    | .sqlite =>
      if users.any (fun u => u.email == email) then (users, .duplicateFlash)
      else (users ++ [newUserRow hash users fullname email password], .success)

/-! ## Password changes (src/app.py, `user_change_password` lines 138-161,
`change_password` lines 639-662) -/

inductive PwOutcome
  | incorrectCurrent                -- "Incorrect current password."
  | mismatch                        -- "New passwords do not match."
  | updated                         -- "Password updated/changed successfully!"
  | dbError (msg : String)          -- unhandled datastore error, request aborts
deriving DecidableEq

/-- The column list of the users table, from the CREATE TABLE statement in
src/init_db.py lines 43-53. Note there is no column named `password`;
the stored credential column is `password_hash`. -/
def usersTableColumns : List String :=
  ["id", "fullname", "email", "password_hash", "phone", "location", "created_at"]

/-- Column access on a users row by SQL name (used to model a SELECT of a
single column). Unknown columns have no value. -/
def UserRow.getColumn (u : UserRow) (col : String) : Option String :=
  if col = "fullname" then some u.fullname
  else if col = "email" then some u.email
  else if col = "password_hash" then some u.password_hash
  else none

/-- Handler `user_change_password` POST: it runs
`SELECT password FROM users WHERE id = ?` and compares the fetched value
with the submitted current password by plain string equality, then on
success runs `UPDATE users SET password = ?`. The users table has no
column `password` (see `usersTableColumns`), so against any store created
by the schema initializer the SELECT itself fails with an OperationalError
("no such column"), which nothing in the handler catches. -/
def userChangePassword (users : List UserRow) (uid : Nat)
    (current new confirm : String) : List UserRow × PwOutcome :=
  if usersTableColumns.contains "password" then
    -- plaintext comparison branch, per the source text; unreachable because
    -- the schema never defines this column
    match users.find? (fun u => u.id == uid) with
    | none => (users, .incorrectCurrent)
    | some u =>
      if ((u.getColumn "password").getD "") ≠ current then (users, .incorrectCurrent)
      else if new ≠ confirm then (users, .mismatch)
      else (users, .updated)
  else
    (users, .dbError "no such column: password")

/-- Admin handler `change_password` POST: fetch the admin row, check the current
password with `check_password_hash`, require the two new passwords to
match, then store `generate_password_hash(new)`. -/
def adminChangePassword (hash : String → String) (check : String → String → Bool)
    (admins : List AdminRow) (admin_id : Nat)
    (current new confirm : String) : List AdminRow × PwOutcome :=
  match admins.find? (fun a => a.id == admin_id) with
  | none => (admins, .dbError "NoneType is not subscriptable")
  | some a =>
    if ¬ check a.password_hash current then (admins, .incorrectCurrent)
    else if new ≠ confirm then (admins, .mismatch)
    else
      (admins.map (fun x => if x.id == admin_id then { x with password_hash := hash new } else x),
       .updated)

/-! ## Booking flow (src/app.py, `book_package`, lines 196-247) -/

/-- The catalog-and-booking slice of the datastore. -/
structure BookDB where
  packages : List Package
  bookings : List Booking
  payments : List Payment
deriving DecidableEq

/-- The statements of the booking unit, in source order; `commitTx` is the
final `db.commit()`. A fault oracle picks which one (if any) raises. -/
inductive BookStep
  | insertBooking
  | insertPayment
  | confirmStatus
  | commitTx
deriving DecidableEq

inductive BookOutcome
  | packageNotFound                 -- flash "Package not found.", redirect
  | validationError                 -- flash "Please fill all fields."
  | genericFailure                  -- rollback + flash "Something went wrong during booking!"
  | success (booking_id : Nat) (amount : Int)  -- redirect to my_bookings
deriving DecidableEq

def nextBookingId (db : BookDB) : Nat :=
  (db.bookings.foldl (fun m b => max m b.id) 0) + 1

def nextPaymentId (db : BookDB) : Nat :=
  (db.payments.foldl (fun m p => max m p.id) 0) + 1

/-- Handler `book_package` POST on the SQLite backend. The three statements of the
booking unit run inside one implicit SQLite transaction (no commit occurs
between them), so when any of them — or the `int(persons)` conversion, or
the final commit — raises, the `except` clause's `db.rollback()` restores
the datastore to its state at handler entry; the handler then flashes a
generic failure notice instead of propagating the exception. On success
the transaction commits and the handler reports the new booking id and
the computed amount `package.price * persons`. -/
def bookPackage (failAt : Option BookStep) (now : Nat) (db : BookDB)
    (user_id package_id : Nat)
    (name email travel_date persons : String) : BookDB × BookOutcome :=
  match db.packages.find? (fun p => p.id == package_id) with
  | none => (db, .packageNotFound)
  | some pkg =>
    if name = "" ∨ email = "" ∨ travel_date = "" ∨ persons = "" then
      (db, .validationError)
    else
      match pyInt? persons with
      | none => (db, .genericFailure)       -- int() raises ValueError, caught
      | some n =>
        let amount := pkg.price * n
        let bid := nextBookingId db
        let newBooking : Booking :=
          ⟨bid, user_id, package_id, name, email, travel_date, n, "Confirmed", now⟩
        let newPayment : Payment :=
          ⟨nextPaymentId db, bid, user_id, amount, "SUCCESS", "ONLINE", now⟩
        if failAt = some .insertBooking then (db, .genericFailure)
        else
          let db1 := { db with bookings := db.bookings ++ [newBooking] }
          if failAt = some .insertPayment then (db, .genericFailure)
          else
            let db2 := { db1 with payments := db1.payments ++ [newPayment] }
            if failAt = some .confirmStatus then (db, .genericFailure)
            else
              let confirmed :=
                db2.bookings.map (fun b => if b.id == bid then { b with status := "Confirmed" } else b)
              let db3 := { db2 with bookings := confirmed }
              if failAt = some .commitTx then (db, .genericFailure)
              else (db3, .success bid amount)

/-- The referential invariant the spec's atomicity requirement protects:
no booking row without its payment row and no payment row without its
booking row. -/
def paymentsMatched (db : BookDB) : Prop :=
  (∀ b ∈ db.bookings, ∃ p ∈ db.payments, p.booking_id = b.id) ∧
  (∀ p ∈ db.payments, ∃ b ∈ db.bookings, b.id = p.booking_id)

instance (db : BookDB) : Decidable (paymentsMatched db) := by
  unfold paymentsMatched; infer_instance

/-! ## Package detail, deletion, and my-bookings
(src/app.py lines 166-171, 664-675, 256-276) -/

/-- GET /package/{id} (`package_detail`): `none` models the 404 abort. -/
def packageDetail (db : BookDB) (pid : Nat) : Option Package :=
  db.packages.find? (fun p => p.id == pid)

inductive DeleteOutcome
  | notFound                        -- abort(404)
  | deleted (title : String)        -- flash "Package '<title>' deleted."
deriving DecidableEq

/-- POST /admin/delete-package/{id} (`delete_package`): 404 when the id is
absent, else `DELETE FROM packages WHERE id=?`. Bookings and payments are
not touched (the schema declares no foreign keys on bookings). -/
def deletePackage (db : BookDB) (pid : Nat) : BookDB × DeleteOutcome :=
  match db.packages.find? (fun p => p.id == pid) with
  | none => (db, .notFound)
  | some p =>
    ({ db with packages := db.packages.filter (fun x => ! (x.id == pid)) }, .deleted p.title)

/-- Insertion sort by `booked_at` descending, modelling
`ORDER BY b.booked_at DESC`. -/
def insertByDateDesc (b : Booking) : List Booking → List Booking
  | [] => [b]
  | c :: cs => if b.booked_at ≥ c.booked_at then b :: c :: cs else c :: insertByDateDesc b cs

def sortByDateDesc : List Booking → List Booking
  | [] => []
  | b :: bs => insertByDateDesc b (sortByDateDesc bs)

/-- GET /my_bookings (`my_bookings`): the user's bookings INNER JOINed
with packages on `b.package_id = p.id`, newest first. Each result row
carries the booking together with its joined package (the SELECT list
draws fields from both); a booking whose package id matches no package
row produces no result row, as an inner join dictates. -/
def myBookings (db : BookDB) (uid : Nat) : List (Booking × Package) :=
  (sortByDateDesc (db.bookings.filter (fun b => b.user_id == uid))).filterMap
    (fun b => (db.packages.find? (fun p => p.id == b.package_id)).map (fun p => (b, p)))

/-! ## Concrete fixtures for witnesses and counterexamples -/

/-- Stand-in for werkzeug's generate_password_hash (an external
collaborator) used to instantiate theorems at concrete inputs. -/
def demoHash (p : String) : String :=
  "pbkdf2:" ++ p

/-- Stand-in for werkzeug's check_password_hash, matching `demoHash`. -/
def demoCheck (h p : String) : Bool :=
  h == demoHash p

def demoAdmin : AdminRow :=
  seedAdmin demoHash

def aliceRow : UserRow :=
  ⟨1, "Alice", "alice@example.com", demoHash "pw123", none, none, 0⟩

def bk1 : Booking :=
  ⟨1, 1, 1, "Alice", "alice@example.com", "2026-01-01", 2, "Confirmed", 10⟩

def pay1 : Payment :=
  ⟨1, 1, 1, 25998, "SUCCESS", "ONLINE", 10⟩

/-- A store holding only the first demo package. -/
def bookDb0 : BookDB :=
  ⟨[beachPkg], [], []⟩

/-- A store with one booked package: `bk1`/`pay1` reference `beachPkg`. -/
def bookDb1 : BookDB :=
  ⟨[beachPkg], [bk1], [pay1]⟩

/-! # Theorems -/

/-- C3: running schema initialization twice in succession starting from an
empty datastore leaves exactly one seed admin row and exactly two seed
package rows; the second run changes nothing (no duplicates) and does not
fail. -/
theorem initDb_twice_from_empty (hash : String → String) :
    (initDb hash (initDb hash emptyInitDB)).admins.length = 1 ∧
    (initDb hash (initDb hash emptyInitDB)).packages.length = 2 ∧
    initDb hash (initDb hash emptyInitDB) = initDb hash emptyInitDB :=
  ⟨rfl, rfl, rfl⟩

/-- C6 counterexample: on the SQLite backend, a `log_action` call with
role "user" writes its row into the admin-activity table and leaves the
user/cloud-activity table untouched, contrary to the claimed routing. -/
theorem logAction_sqlite_misroutes :
    (logAction .sqlite false ⟨[], []⟩ (some 7) "user" "testing").cloud_activity = [] ∧
    (logAction .sqlite false ⟨[], []⟩ (some 7) "user" "testing").admin_activity =
      [⟨1, some 7, "user", "testing", 0⟩] :=
  ⟨rfl, rfl⟩

/-- C6 amended: every `log_action` call appends exactly one audit row and
never raises (an injected fault leaves the store unchanged and returns
normally); on the PostgreSQL backend the row is routed by role (admin
table for "admin", user/cloud table otherwise), while on the SQLite
backend every row goes to the admin-activity table regardless of role. -/
theorem logAction_amended (be : Backend) (db : LogDB) (uid : Option Nat)
    (role action : String) :
    logAction be true db uid role action = db ∧
    logAction be false db uid role action =
      (if be = .postgres ∧ role ≠ "admin" then
        { db with cloud_activity :=
            db.cloud_activity ++ [⟨db.cloud_activity.length + 1, uid, role, action, 0⟩] }
      else
        { db with admin_activity :=
            db.admin_activity ++ [⟨db.admin_activity.length + 1, uid, role, action, 0⟩] }) := by
  refine ⟨rfl, ?_⟩
  cases be with
  | sqlite => simp [logAction]
  | postgres =>
    by_cases h : role = "admin" <;> simp [logAction, h]

/-- C7 counterexample: a successful admin login clears the whole session,
so a previously established user session does not survive — the browser
cannot be simultaneously logged in as user and admin. -/
theorem adminLogin_clears_user_session :
    (adminLogin demoCheck [demoAdmin] ⟨some 1, some "Alice", none, none⟩
        "admin@demo.com" "admin123").2 = .success ∧
    (adminLogin demoCheck [demoAdmin] ⟨some 1, some "Alice", none, none⟩
        "admin@demo.com" "admin123").1.user_id = none := by
  constructor <;> rfl

/-- C7 amended: the two roles use disjoint session keys, but each
successful login first clears the entire session: after a successful user
login the admin keys are absent (and the user id is set), and after a
successful admin login the user keys are absent (and the admin id is
set). -/
theorem login_sessions_amended (check : String → String → Bool)
    (users : List UserRow) (admins : List AdminRow) (s t : Session)
    (e1 p1 e2 p2 : String)
    (hu : (userLogin check users s e1 p1).2 = .success)
    (ha : (adminLogin check admins t e2 p2).2 = .success) :
    ((userLogin check users s e1 p1).1.admin_id = none ∧
     (userLogin check users s e1 p1).1.admin_name = none ∧
     (userLogin check users s e1 p1).1.user_id.isSome = true) ∧
    ((adminLogin check admins t e2 p2).1.user_id = none ∧
     (adminLogin check admins t e2 p2).1.user_name = none ∧
     (adminLogin check admins t e2 p2).1.admin_id.isSome = true) := by
  constructor
  · cases hfind : users.find? (fun u => u.email == e1) with
    | none => simp [userLogin, hfind] at hu
    | some u =>
      by_cases hc : check u.password_hash p1
      · simp [userLogin, hfind, hc, sessionCleared]
      · simp [userLogin, hfind, hc] at hu
  · cases hfind : admins.find? (fun a => a.email == e2) with
    | none => simp [adminLogin, hfind] at ha
    | some a =>
      by_cases hc : check a.password_hash p2
      · simp [adminLogin, hfind, hc, sessionCleared]
      · simp [adminLogin, hfind, hc] at ha

/-- C7 amended, witness: concrete successful logins for the seeded demo
accounts exhibit the cleared opposite-role keys. -/
theorem login_sessions_amended_witness :
    ((userLogin demoCheck [aliceRow] ⟨none, none, none, none⟩
        "alice@example.com" "pw123").1.admin_id = none ∧
     (userLogin demoCheck [aliceRow] ⟨none, none, none, none⟩
        "alice@example.com" "pw123").1.admin_name = none ∧
     (userLogin demoCheck [aliceRow] ⟨none, none, none, none⟩
        "alice@example.com" "pw123").1.user_id.isSome = true) ∧
    ((adminLogin demoCheck [demoAdmin] ⟨none, none, none, none⟩
        "admin@demo.com" "admin123").1.user_id = none ∧
     (adminLogin demoCheck [demoAdmin] ⟨none, none, none, none⟩
        "admin@demo.com" "admin123").1.user_name = none ∧
     (adminLogin demoCheck [demoAdmin] ⟨none, none, none, none⟩
        "admin@demo.com" "admin123").1.admin_id.isSome = true) :=
  login_sessions_amended demoCheck [aliceRow] [demoAdmin]
    ⟨none, none, none, none⟩ ⟨none, none, none, none⟩
    "alice@example.com" "pw123" "admin@demo.com" "admin123"
    (by decide) (by decide)

/-- C5 counterexample: on the PostgreSQL backend a registration reusing an
existing email dies at the handler's `db.execute` call — the psycopg2
connection has no `execute` method, so an AttributeError propagates
(the except clause catches only `sqlite3.IntegrityError`), contrary to
"no exception propagates, on either backend". -/
theorem register_postgres_raises :
    register .postgres demoHash [aliceRow] "Bob" "alice@example.com" "pw" =
      ([aliceRow], .raised pgNoExecute) :=
  rfl

/-- C5 amended: a registration attempt reusing an existing email (all
fields present) creates no new row on either backend; on SQLite it fails
with the DuplicateEmail notice and no exception propagates, while on
PostgreSQL the handler's `db.execute` call raises AttributeError before
the INSERT (the psycopg2 connection has no `execute` method), uncaught by
the sqlite-specific except clause, so an exception propagates — as it
does for every PostgreSQL registration, duplicate or fresh, which
likewise creates no row. -/
theorem register_duplicate_amended (be : Backend) (hash : String → String)
    (users freshUsers : List UserRow)
    (fullname email password fullname2 email2 password2 : String)
    (hf : ¬ fullname = "") (he : ¬ email = "") (hp : ¬ password = "")
    (hf2 : ¬ fullname2 = "") (he2 : ¬ email2 = "") (hp2 : ¬ password2 = "")
    (hdup : users.any (fun u => u.email == email) = true) :
    register be hash users fullname email password =
      (users, match be with
              | .sqlite => .duplicateFlash
              | .postgres => .raised pgNoExecute) ∧
    register .postgres hash freshUsers fullname2 email2 password2 =
      (freshUsers, .raised pgNoExecute) := by
  constructor
  · cases be <;> simp [register, hf, he, hp, hdup]
  · simp [register, hf2, he2, hp2]

/-- C5 amended, witness: registering Alice's email again on the SQLite
backend flashes the duplicate notice and leaves the users table
unchanged, while a fresh-email registration on the PostgreSQL backend
raises and inserts nothing. -/
theorem register_duplicate_amended_witness :
    register .sqlite demoHash [aliceRow] "Bob" "alice@example.com" "pw" =
      ([aliceRow], .duplicateFlash) ∧
    register .postgres demoHash [] "Carol" "carol@example.com" "pw2" =
      ([], .raised pgNoExecute) :=
  register_duplicate_amended .sqlite demoHash [aliceRow] []
    "Bob" "alice@example.com" "pw" "Carol" "carol@example.com" "pw2"
    (by decide) (by decide) (by decide) (by decide) (by decide) (by decide) (by decide)

/-- C9 counterexample: the user-facing change-password handler selects a
column `password` that the users table does not define, so even a request
with mismatched new passwords dies with a datastore error instead of the
claimed Mismatch notice. -/
theorem userChangePassword_db_error :
    userChangePassword [aliceRow] 1 "pw123" "newpw" "different" =
      ([aliceRow], .dbError "no such column: password") ∧
    (userChangePassword [aliceRow] 1 "pw123" "newpw" "different").2 ≠ .mismatch :=
  ⟨rfl, by decide⟩

/-- C9 amended: the admin-facing change-password behaves as claimed — an
InvalidCredentials notice when the current-password check fails, a
Mismatch notice when the new passwords differ, and otherwise the salted
hash of the new password is stored — while the user-facing path always
fails with an unhandled "no such column: password" datastore error
(its query names a column the schema never creates), leaving the users
table unchanged. -/
theorem changePassword_amended
    (hash : String → String) (check : String → String → Bool)
    (users : List UserRow) (uid : Nat) (cur new confirm : String)
    (admins : List AdminRow) (aid : Nat) (a : AdminRow)
    (curBad curGood newPw badConfirm new2 : String)
    (hfind : admins.find? (fun x => x.id == aid) = some a)
    (hbad : check a.password_hash curBad = false)
    (hgood : check a.password_hash curGood = true)
    (hne : ¬ newPw = badConfirm) :
    userChangePassword users uid cur new confirm =
      (users, .dbError "no such column: password") ∧
    adminChangePassword hash check admins aid curBad newPw newPw =
      (admins, .incorrectCurrent) ∧
    adminChangePassword hash check admins aid curGood newPw badConfirm =
      (admins, .mismatch) ∧
    (adminChangePassword hash check admins aid curGood new2 new2).2 = .updated ∧
    { a with password_hash := hash new2 } ∈
      (adminChangePassword hash check admins aid curGood new2 new2).1 := by
  have hmem : a ∈ admins := List.mem_of_find?_eq_some hfind
  have hid : a.id = aid := by simpa using List.find?_some hfind
  refine ⟨rfl, ?_, ?_, ?_, ?_⟩
  · simp [adminChangePassword, hfind, hbad]
  · simp [adminChangePassword, hfind, hgood, hne]
  · simp [adminChangePassword, hfind, hgood]
  · simp only [adminChangePassword, hfind]
    simp [hgood]
    exact ⟨a, hmem, by rw [if_pos hid]⟩

/-- C9 amended, witness: concrete runs of both handlers against the seed
admin and the demo user exhibit the three admin-path outcomes and the
user-path datastore error. -/
theorem changePassword_amended_witness :
    userChangePassword [aliceRow] 1 "pw123" "npw" "npw" =
      ([aliceRow], .dbError "no such column: password") ∧
    adminChangePassword demoHash demoCheck [demoAdmin] 1 "wrong" "n1" "n1" =
      ([demoAdmin], .incorrectCurrent) ∧
    adminChangePassword demoHash demoCheck [demoAdmin] 1 "admin123" "n1" "n2" =
      ([demoAdmin], .mismatch) ∧
    (adminChangePassword demoHash demoCheck [demoAdmin] 1 "admin123" "npw" "npw").2 =
      .updated ∧
    { demoAdmin with password_hash := demoHash "npw" } ∈
      (adminChangePassword demoHash demoCheck [demoAdmin] 1 "admin123" "npw" "npw").1 :=
  changePassword_amended demoHash demoCheck [aliceRow] 1 "pw123" "npw" "npw"
    [demoAdmin] 1 demoAdmin "wrong" "admin123" "n1" "n2" "npw"
    (by decide) (by decide) (by decide) (by decide)

/-- C8 counterexample: before the delete, Alice's booking of package 1 is
retrievable through myBookings; after the admin deletes package 1,
getPackage(1) is NotFound and the booking row still sits in the bookings
table, yet myBookings no longer returns it — the inner join with packages
hides the dangling booking, contrary to "remains retrievable unchanged
via myBookings". -/
theorem deletePackage_hides_booking :
    myBookings bookDb1 1 = [(bk1, beachPkg)] ∧
    packageDetail (deletePackage bookDb1 1).1 1 = none ∧
    bk1 ∈ (deletePackage bookDb1 1).1.bookings ∧
    myBookings (deletePackage bookDb1 1).1 1 = [] := by
  refine ⟨?_, ?_, ?_, ?_⟩ <;> decide

/-- C8 amended: after an admin deletes an existing package, getPackage for
that id returns NotFound and the booking and payment rows are left
unchanged in the datastore, but myBookings inner-joins bookings with
packages, so no booking referencing the deleted package id appears in any
user's myBookings listing — the dangling booking is retained yet no
longer retrievable there. -/
theorem deletePackage_amended (db : BookDB) (pid uid : Nat) (pkg : Package)
    (hfind : db.packages.find? (fun p => p.id == pid) = some pkg) :
    (deletePackage db pid).2 = .deleted pkg.title ∧
    packageDetail (deletePackage db pid).1 pid = none ∧
    (deletePackage db pid).1.bookings = db.bookings ∧
    (deletePackage db pid).1.payments = db.payments ∧
    ∀ b p, (b, p) ∈ myBookings (deletePackage db pid).1 uid → ¬ b.package_id = pid := by
  have hdel : deletePackage db pid =
      ({ db with packages := db.packages.filter (fun x => ! (x.id == pid)) }, .deleted pkg.title) := by
    simp [deletePackage, hfind]
  refine ⟨by rw [hdel], ?_, by rw [hdel], by rw [hdel], ?_⟩
  · rw [hdel]
    simp only [packageDetail]
    rw [List.find?_eq_none]
    intro x hx
    have := (List.mem_filter.mp hx).2
    simp at this ⊢
    exact this
  · intro b p hbp
    rw [hdel] at hbp
    simp only [myBookings, List.mem_filterMap] at hbp
    obtain ⟨b', _, hsome⟩ := hbp
    rw [Option.map_eq_some'] at hsome
    obtain ⟨p', hfind', heqpair⟩ := hsome
    have hb : b' = b := congrArg Prod.fst heqpair
    rw [← hb]
    have hpid : p'.id = b'.package_id := by
      simpa using List.find?_some hfind'
    have hpmem := List.mem_of_find?_eq_some hfind'
    have hkeep : (! (p'.id == pid)) = true := (List.mem_filter.mp hpmem).2
    intro hcontra
    simp [hpid, hcontra] at hkeep

/-- A pattern consisting of the single wildcard '%' matches every text. -/
theorem likeMatch_just_pct (s : List Char) : likeMatch ['%'] s = true := by
  simp only [likeMatch, if_pos, List.any_eq_true]
  exact ⟨[], (List.mem_tails [] s).mpr ⟨s, List.append_nil s⟩, rfl⟩

/-- A wildcard-free pattern followed by '%' matches exactly the texts of
which it is an ASCII-case-insensitive prefix. -/
theorem likeMatch_lit_pct (q : List Char) (hq : ∀ c ∈ q, c ≠ '%' ∧ c ≠ '_') :
    ∀ s : List Char,
      likeMatch (q ++ ['%']) s = true ↔ q.map lowerAscii <+: s.map lowerAscii := by
  induction q with
  | nil => intro s; simp [likeMatch_just_pct]
  | cons c q ih =>
    intro s
    have hc := hq c (by simp)
    have hq' : ∀ d ∈ q, d ≠ '%' ∧ d ≠ '_' := fun d hd => hq d (by simp [hd])
    cases s with
    | nil => simp [likeMatch, hc.1]
    | cons d t => simp [likeMatch, hc.1, hc.2, ih hq' t]

/-- Unfolding the leading '%' of a pattern: some suffix of the text
matches the rest. -/
theorem likeMatch_pct_iff (p : List Char) (s : List Char) :
    likeMatch ('%' :: p) s = true ↔ ∃ t, t <:+ s ∧ likeMatch p t = true := by
  simp [likeMatch, List.any_eq_true, List.mem_tails]

/-- Having a case-insensitive prefix inside some suffix is the same as
case-insensitive substring containment. -/
theorem map_lower_infix_iff (q s : List Char) :
    (∃ t, t <:+ s ∧ q.map lowerAscii <+: t.map lowerAscii) ↔
      q.map lowerAscii <:+: s.map lowerAscii := by
  constructor
  · rintro ⟨t, ⟨u, hu⟩, ⟨v, hv⟩⟩
    refine ⟨u.map lowerAscii, v, ?_⟩
    rw [← hu, List.map_append, ← hv, List.append_assoc]
  · rintro ⟨u, v, huv⟩
    refine ⟨s.drop u.length, List.drop_suffix _ _, ?_⟩
    have hdrop : (s.map lowerAscii).drop u.length = q.map lowerAscii ++ v := by
      rw [← huv, List.append_assoc]
      exact List.drop_left u _
    rw [← List.map_drop] at hdrop
    exact ⟨v, hdrop.symm⟩

/-- For queries free of LIKE wildcards, the handler's `LIKE '%q%'` test
coincides with ASCII-case-insensitive substring containment. -/
theorem sqlLike_eq_containsCI (qt s : String) (h : noLikeWildcard qt = true) :
    sqlLike s ("%" ++ qt ++ "%") = containsCI qt s := by
  have hq : ∀ c ∈ qt.data, c ≠ '%' ∧ c ≠ '_' := by
    intro c hc
    have hall := List.all_eq_true.mp h c hc
    simp only [Bool.and_eq_true, decide_eq_true_eq] at hall
    exact hall
  have hpat : ("%" ++ qt ++ "%").data = '%' :: (qt.data ++ ['%']) := rfl
  have hiff : likeMatch ('%' :: (qt.data ++ ['%'])) s.data = true ↔
      (qt.data.map lowerAscii <:+: s.data.map lowerAscii) := by
    rw [likeMatch_pct_iff]
    simp only [likeMatch_lit_pct qt.data hq]
    exact map_lower_infix_iff _ _
  unfold sqlLike containsCI
  rw [hpat]
  by_cases hP : qt.data.map lowerAscii <:+: s.data.map lowerAscii
  · simp [hP, hiff.mpr hP]
  · rw [decide_eq_false_iff_not.mpr hP]
    exact Bool.eq_false_iff.mpr (fun hh => hP (hiff.mp hh))

/-- C4 counterexample: the query "B%e" is not a substring of any seeded
package's title or location, so the claim demands the empty result, but
the handler feeds the query into a LIKE pattern where '%' is a wildcard
and returns the Beach Escape package. -/
theorem explorePackages_wildcard_diverges :
    explorePackages "B%e" demoPackages = [beachPkg] ∧
    specSearch "B%e" demoPackages = [] ∧
    containsCI "B%e" beachPkg.title = false ∧
    containsCI "B%e" beachPkg.location = false := by
  refine ⟨?_, ?_, ?_, ?_⟩ <;> decide

/-- C4 amended: for every query free of SQL LIKE wildcard characters
('%' and '_'), the /explore search agrees exactly with the spec's
semantics — an empty or whitespace-only query returns the unfiltered
package set, a non-empty query returns exactly the packages whose title
or location contains the query as an (ASCII-)case-insensitive substring,
and hence a query matching nothing returns the empty set. Queries
containing '%' or '_' are instead interpreted as LIKE wildcards. -/
theorem explorePackages_spec_agreement (q : String) (pkgs : List Package)
    (h : noLikeWildcard (pyStrip q) = true) :
    explorePackages q pkgs = specSearch q pkgs := by
  unfold explorePackages specSearch
  by_cases hq : pyStrip q = ""
  · simp [hq]
  · simp only [if_neg hq]
    apply List.filter_congr
    intro p _
    rw [sqlLike_eq_containsCI _ _ h, sqlLike_eq_containsCI _ _ h]

/-- C4 amended, witness: the wildcard-free query "goa" agrees with the
spec semantics on the seeded packages. -/
theorem explorePackages_spec_agreement_witness :
    noLikeWildcard (pyStrip "goa") = true ∧
    explorePackages "goa" demoPackages = specSearch "goa" demoPackages :=
  ⟨by decide, explorePackages_spec_agreement "goa" demoPackages (by decide)⟩

/-- C8 amended, witness: the concrete one-booking store. -/
theorem deletePackage_amended_witness :
    (deletePackage bookDb1 1).2 = .deleted "Beach Escape" ∧
    packageDetail (deletePackage bookDb1 1).1 1 = none ∧
    (deletePackage bookDb1 1).1.bookings = [bk1] := by
  have h := deletePackage_amended bookDb1 1 1 beachPkg rfl
  exact ⟨h.1, h.2.1, h.2.2.1⟩

/-- C1: in every execution of the booking POST that reaches the booking
unit (package found, all four fields present, persons parses) and in
which any step of the unit — booking insert, payment insert, status
confirmation, or the commit — fails, the whole unit is rolled back: the
datastore afterwards equals the datastore at handler entry (so it still
contains no booking row without its payment row and no payment row
without its booking row, given it did before), and the handler surfaces
the generic booking-failure notice instead of an exception. -/
theorem bookPackage_rolls_back (s : BookStep) (now : Nat) (db : BookDB)
    (uid pid : Nat) (name email travel_date persons : String)
    (pkg : Package) (n : Int)
    (hfind : db.packages.find? (fun p => p.id == pid) = some pkg)
    (hname : ¬ name = "") (hemail : ¬ email = "")
    (hdate : ¬ travel_date = "") (hpers : ¬ persons = "")
    (hparse : pyInt? persons = some n)
    (hinv : paymentsMatched db) :
    bookPackage (some s) now db uid pid name email travel_date persons =
      (db, .genericFailure) ∧
    paymentsMatched
      (bookPackage (some s) now db uid pid name email travel_date persons).1 := by
  have h : bookPackage (some s) now db uid pid name email travel_date persons =
      (db, .genericFailure) := by
    cases s <;>
      simp [bookPackage, hfind, hname, hemail, hdate, hpers, hparse]
  exact ⟨h, by rw [h]; exact hinv⟩

/-- C1 witness: a payment-insert failure on the seeded store rolls the
whole unit back. -/
theorem bookPackage_rolls_back_witness :
    bookPackage (some .insertPayment) 5 bookDb0 1 1
        "Alice" "alice@example.com" "2026-01-01" "2" =
      (bookDb0, .genericFailure) ∧ paymentsMatched bookDb0 :=
  ⟨(bookPackage_rolls_back .insertPayment 5 bookDb0 1 1
      "Alice" "alice@example.com" "2026-01-01" "2" beachPkg 2
      rfl (by decide) (by decide) (by decide) (by decide) rfl (by decide)).1,
   by decide⟩

/-- C2: every successful booking POST on an existing package with all
four fields present reports success with amount = package.price × persons
and creates a booking row in the confirmed state together with a payment
row for that booking whose amount equals package.price × persons. -/
theorem bookPackage_success_props (now : Nat) (db : BookDB)
    (uid pid : Nat) (name email travel_date persons : String)
    (pkg : Package) (n : Int)
    (hfind : db.packages.find? (fun p => p.id == pid) = some pkg)
    (hname : ¬ name = "") (hemail : ¬ email = "")
    (hdate : ¬ travel_date = "") (hpers : ¬ persons = "")
    (hparse : pyInt? persons = some n) :
    (bookPackage none now db uid pid name email travel_date persons).2 =
      .success (nextBookingId db) (pkg.price * n) ∧
    (∃ b ∈ (bookPackage none now db uid pid name email travel_date persons).1.bookings,
      b.id = nextBookingId db ∧ b.status = "Confirmed" ∧
      ∃ pay ∈ (bookPackage none now db uid pid name email travel_date persons).1.payments,
        pay.booking_id = b.id ∧ pay.amount = pkg.price * n) := by
  refine ⟨?_,
    (⟨nextBookingId db, uid, pid, name, email, travel_date, n, "Confirmed", now⟩ : Booking),
    ?_, rfl, rfl,
    (⟨nextPaymentId db, nextBookingId db, uid, pkg.price * n, "SUCCESS", "ONLINE", now⟩ : Payment),
    ?_, rfl, rfl⟩ <;>
  simp [bookPackage, hfind, hname, hemail, hdate, hpers, hparse]

/-- C2 witness: booking the seeded Beach Escape package for two persons
yields a confirmed booking and a payment of 12999 × 2 = 25998. -/
theorem bookPackage_success_props_witness :
    (bookPackage none 5 bookDb0 1 1 "Alice" "alice@example.com" "2026-01-01" "2").2 =
      .success 1 25998 ∧
    (∃ b ∈ (bookPackage none 5 bookDb0 1 1
        "Alice" "alice@example.com" "2026-01-01" "2").1.bookings,
      b.id = 1 ∧ b.status = "Confirmed" ∧
      ∃ pay ∈ (bookPackage none 5 bookDb0 1 1
          "Alice" "alice@example.com" "2026-01-01" "2").1.payments,
        pay.booking_id = b.id ∧ pay.amount = 25998) :=
  bookPackage_success_props 5 bookDb0 1 1 "Alice" "alice@example.com" "2026-01-01" "2"
    beachPkg 2 rfl (by decide) (by decide) (by decide) (by decide) rfl

/-- C10: an authenticated booking POST on an existing package whose
persons field is present but not parseable as an integer does not
propagate the conversion exception: the handler catches it, rolls the
transaction back (the datastore is unchanged, so no booking and no
payment row is created), and reports the generic failure notice while
re-rendering the booking form. -/
theorem bookPackage_bad_persons (failAt : Option BookStep) (now : Nat)
    (db : BookDB) (uid pid : Nat)
    (name email travel_date persons : String) (pkg : Package)
    (hfind : db.packages.find? (fun p => p.id == pid) = some pkg)
    (hname : ¬ name = "") (hemail : ¬ email = "")
    (hdate : ¬ travel_date = "") (hpers : ¬ persons = "")
    (hparse : pyInt? persons = none) :
    bookPackage failAt now db uid pid name email travel_date persons =
      (db, .genericFailure) := by
  simp [bookPackage, hfind, hname, hemail, hdate, hpers, hparse]

/-- C10 witness: persons = "two" is present but unparseable; the store is
left unchanged and the generic failure notice is reported. -/
theorem bookPackage_bad_persons_witness :
    bookPackage none 5 bookDb0 1 1 "Alice" "alice@example.com" "2026-01-01" "two" =
      (bookDb0, .genericFailure) :=
  bookPackage_bad_persons none 5 bookDb0 1 1 "Alice" "alice@example.com" "2026-01-01" "two"
    beachPkg rfl (by decide) (by decide) (by decide) (by decide) rfl

end Tourism
